import Mathlib

/-!
Shallow embedding of the event-planning application's core
(`BaseTracker.py`, `GuestManager.py`, `TaskManager.py`, `BudgetManager.py`).

Python string primitives (`str.strip`, `str.lower`, `str.title`, substring
membership, `float(...)` parsing) are modelled on ASCII character data,
which covers every string the application manipulates.  `float(...)` is
modelled with exact rational semantics of the accepted literal (no IEEE-754
rounding); the special values `inf`, `-inf` and `nan` that Python's parser
accepts are modelled explicitly, since they interact with the `amount <= 0`
comparison in `BudgetManager.add_expense`.
-/

/-- Characters removed by Python's `str.strip()` (ASCII whitespace). -/
def pyWhitespace (c : Char) : Bool :=
  c = ' ' || c = '\t' || c = '\n' || c = '\r' || c = Char.ofNat 11 || c = Char.ofNat 12

/-- `str.strip()` on character lists: drop leading and trailing whitespace. -/
def pyStripList (l : List Char) : List Char :=
  ((l.dropWhile pyWhitespace).reverse.dropWhile pyWhitespace).reverse

/-- Python `s.strip()`. -/
def pyStrip (s : String) : String :=
  ⟨pyStripList s.data⟩

/-- `str.lower()` on character lists. -/
def lowerList (l : List Char) : List Char :=
  l.map Char.toLower

/-- Python `s.lower()`. -/
def pyLower (s : String) : String :=
  ⟨lowerList s.data⟩

/-- `str.title()` on character lists: the flag records whether the previous
character was alphabetic (i.e. we are inside a word). -/
def pyTitleList : Bool → List Char → List Char
  | _, [] => []
  | inWord, c :: rest =>
    if c.isAlpha then
      (if inWord then c.toLower else c.toUpper) :: pyTitleList true rest
    else
      c :: pyTitleList false rest

/-- Python `s.title()`. -/
def pyTitle (s : String) : String :=
  ⟨pyTitleList false s.data⟩

/-- Does `hay` start with `needle`?  (list version, by explicit recursion) -/
def leadsList : List Char → List Char → Bool
  | [], _ => true
  | _ :: _, [] => false
  | a :: as, b :: bs => a = b && leadsList as bs

/-- Python's `needle in hay` substring test on character lists. -/
def hasSubstr (needle : List Char) : List Char → Bool
  | [] => needle.isEmpty
  | c :: rest => leadsList needle (c :: rest) || hasSubstr needle rest

/-- Python `needle in hay` on strings. -/
def strContains (hay needle : String) : Bool :=
  hasSubstr needle.data hay.data

/-- Python float values as far as this application observes them:
an exact rational, the two infinities, or NaN. -/
inductive PyFloat where
  | num (q : ℚ)
  | inf
  | ninf
  | nan
deriving DecidableEq

/-- The comparison `x <= 0` on a Python float (`nan <= 0` is `False`). -/
def PyFloat.le0 : PyFloat → Bool
  | .num q => decide (q ≤ 0)
  | .inf => false
  | .ninf => true
  | .nan => false

/-- Is this float a (strictly) positive real number?  `inf` and `nan` are not
numbers in this sense. -/
def PyFloat.isPosNum : PyFloat → Bool
  | .num q => decide (0 < q)
  | _ => false

/-- A `digitpart` of Python's float grammar: `digit (["_"] digit)*`.
Accumulates the value and the number of digits consumed; an underscore is
consumed only between two digits (`n` tracks digits seen so far, so a
leading underscore is rejected).  Returns the unconsumed remainder. -/
def parseDigitsAux : Nat → Nat → List Char → Nat × Nat × List Char
  | acc, n, [] => (acc, n, [])
  | acc, n, [c] =>
    if c.isDigit then (acc * 10 + (c.toNat - 48), n + 1, [])
    else (acc, n, [c])
  | acc, n, c :: d :: rest =>
    if c.isDigit then parseDigitsAux (acc * 10 + (c.toNat - 48)) (n + 1) (d :: rest)
    else if c = '_' ∧ d.isDigit ∧ 0 < n then
      parseDigitsAux (acc * 10 + (d.toNat - 48)) (n + 1) rest
    else (acc, n, c :: d :: rest)

/-- An unsigned `floatnumber` of Python's grammar:
`([digitpart] ["." [digitpart]] with at least one digit) [("e"|"E") [sign] digitpart]`.
Returns the exact rational value and the unconsumed remainder, or `none`
when no digit is present at all. -/
def parseNumber (l : List Char) : Option (ℚ × List Char) :=
  let r0 := parseDigitsAux 0 0 l
  let ip := r0.1
  let ni := r0.2.1
  let r1 := r0.2.2
  let rf :=
    match r1 with
    | '.' :: r => parseDigitsAux 0 0 r
    | _ => (0, 0, r1)
  let fp := rf.1
  let nf := rf.2.1
  let r2 := rf.2.2
  if ni + nf = 0 then none
  else
    let m : Int := Int.ofNat (ip * 10 ^ nf + fp)
    match r2 with
    | 'e' :: r3 =>
      let sr : Bool × List Char :=
        match r3 with
        | '+' :: t => (false, t)
        | '-' :: t => (true, t)
        | _ => (false, r3)
      let re := parseDigitsAux 0 0 sr.2
      if re.2.1 = 0 then some (mkRat m (10 ^ nf), r2)
      else if sr.1 then some (mkRat m (10 ^ (nf + re.1)), re.2.2)
      else some (mkRat (m * 10 ^ re.1) (10 ^ nf), re.2.2)
    | 'E' :: r3 =>
      let sr : Bool × List Char :=
        match r3 with
        | '+' :: t => (false, t)
        | '-' :: t => (true, t)
        | _ => (false, r3)
      let re := parseDigitsAux 0 0 sr.2
      if re.2.1 = 0 then some (mkRat m (10 ^ nf), r2)
      else if sr.1 then some (mkRat m (10 ^ (nf + re.1)), re.2.2)
      else some (mkRat (m * 10 ^ re.1) (10 ^ nf), re.2.2)
    | _ => some (mkRat m (10 ^ nf), r2)

/-- Python `float(s)` on a string: strip whitespace, optional sign, then
either (case-insensitively) `inf`/`infinity`/`nan` or a decimal literal;
`none` models the `ValueError` raised on anything else. -/
def pyFloat (s : String) : Option PyFloat :=
  let l := pyStripList s.data
  let sl : Bool × List Char :=
    match l with
    | '+' :: t => (false, t)
    | '-' :: t => (true, t)
    | _ => (false, l)
  let low := lowerList sl.2
  if low = "inf".data ∨ low = "infinity".data then
    some (if sl.1 then .ninf else .inf)
  else if low = "nan".data then
    some .nan
  else
    match parseNumber sl.2 with
    | some (q, []) => some (.num (if sl.1 then -q else q))
    | _ => none

/-!
## The Record Store (`BaseTracker`)

The backing file of one tracker is modelled as `Option (FileContent α)`:
`none` is an absent file, `FileContent.good l` a file whose JSON content
parses to the record sequence `l` (JSON serialization of a list of flat
records is injective and order-preserving, so the written value itself is
the faithful abstraction of the file's bytes), and `FileContent.corrupt`
a file whose content does not parse (including a truncated or partially
written one).

A `Store` also carries `writes`, the number of completed file writes, so
that "no save was performed" is observable in theorems.
-/

/-- Abstraction of the backing file's content for one tracker. -/
inductive FileContent (α : Type) where
  | good (records : List α)
  | corrupt
deriving DecidableEq

/-- In-memory state of one `BaseTracker`: the record list `self.data`,
the backing file, and a count of completed file writes. -/
structure Store (α : Type) where
  data : List α
  file : Option (FileContent α)
  writes : Nat
deriving DecidableEq

/-- `BaseTracker.load_data`: read the backing file if present; a missing
file or a parse failure yields the empty list (the exception is caught,
so nothing is raised to the caller — totality of this function). -/
def load_data {α : Type} (file : Option (FileContent α)) : List α :=
  match file with
  | none => []
  | some (.good l) => l
  | some .corrupt => []

/-- `BaseTracker.__init__`: a freshly constructed tracker on a given
backing file loads it immediately. -/
def fresh_store {α : Type} (file : Option (FileContent α)) : Store α :=
  ⟨load_data file, file, 0⟩

/-- `BaseTracker.save_data` when the I/O succeeds: overwrite the backing
file with the serialization of the whole in-memory list. -/
def save_data {α : Type} (st : Store α) : Store α :=
  ⟨st.data, some (.good st.data), st.writes + 1⟩

/-- Failure modes of `save_data`'s I/O.  The source opens the file with
mode `'w'` (which truncates it in place) and then streams `json.dump`
into it, so a failure while writing leaves a truncated or partially
written file; only a failure of `open` itself leaves the file untouched. -/
inductive SaveFault where
  | ok
  | openFail
  | writeFail

/-- `BaseTracker.save_data` under the fault model: the exception is caught
and logged, so the function is total either way.  `writes` counts only
completed writes. -/
def save_data_faulty {α : Type} (st : Store α) : SaveFault → Store α
  | .ok => save_data st
  | .openFail => st
  | .writeFail => ⟨st.data, some .corrupt, st.writes⟩

/-- Loop body of `BaseTracker.search_items`: keep the items whose textual
representation (`rep`, modelling Python's `str(item)`) contains the
lowered search term. -/
def searchLoop {α : Type} (rep : α → String) (search_term : String) : List α → List α
  | [] => []
  | item :: rest =>
    if hasSubstr (lowerList search_term.data) (lowerList (rep item).data) then
      item :: searchLoop rep search_term rest
    else
      searchLoop rep search_term rest

/-- `BaseTracker.search_items`: an empty (falsy) term returns `self.data`
itself; otherwise a linear scan collects the case-insensitive substring
matches in order. -/
def search_items {α : Type} (rep : α → String) (data : List α) (search_term : String) :
    List α :=
  if search_term = "" then data
  else searchLoop rep search_term data

/-!
## Records and the three managers

Python raises `ValueError(msg)` for every validation and duplicate
failure; an operation that can raise is modelled as returning the
post-state of `self` paired with `Option PyErr` (`none` = normal return,
`some e` = the exception propagated to the caller).  Timestamps
(`datetime.now()...`) enter as explicit parameters.
-/

/-- The one exception type the managers raise. -/
inductive PyErr where
  | valueError (msg : String)
deriving DecidableEq

/-- A guest record as built by `add_guest`.  `rsvp : Option String` models
the dictionary entry: `none` stands for a (loaded) record that lacks the
`rsvp` key, which `get_rsvp_summary` reads with default `Pending`. -/
structure Guest where
  name : String
  email : String
  phone : String
  rsvp : Option String
  added_date : String
deriving DecidableEq

/-- A task record as built by `add_task`; `completed_date` is absent
until `mark_completed` first stamps it. -/
structure TaskRec where
  id : Nat
  description : String
  priority : String
  due_date : String
  completed : Bool
  created_date : String
  completed_date : Option String
deriving DecidableEq

/-- An expense record as built by `add_expense`. -/
structure Expense where
  id : Nat
  category : String
  description : String
  amount : PyFloat
  date : String
deriving DecidableEq

/-- `GuestManager.add_guest(name, email, phone="")`: normalize, validate
emptiness, scan for a duplicate email (case-insensitively), then append
and save. -/
def add_guest (st : Store Guest) (name email phone now : String) :
    Store Guest × Option PyErr :=
  let name := pyTitle (pyStrip name)
  let email := pyLower (pyStrip email)
  if name = "" ∨ email = "" then
    (st, some (.valueError "Name and email are required"))
  else if st.data.any (fun guest => pyLower guest.email = pyLower email) then
    (st, some (.valueError "Guest with this email already exists"))
  else
    (save_data ⟨st.data ++ [⟨name, email, pyStrip phone, some "Pending", now⟩],
      st.file, st.writes⟩, none)

/-- The loop of `GuestManager.update_rsvp`: set `rsvp` on the first guest
whose lowered email matches, returning `none` when no guest matches. -/
def updateFirst (email status : String) : List Guest → Option (List Guest)
  | [] => none
  | guest :: rest =>
    if pyLower guest.email = pyLower email then
      some ({ guest with rsvp := some status } :: rest)
    else
      (updateFirst email status rest).map (guest :: ·)

/-- `GuestManager.update_rsvp(email, status)`: on the first
case-insensitive email match set the status (any string) and save,
returning `true`; otherwise return `false` with nothing changed. -/
def update_rsvp (st : Store Guest) (email status : String) : Store Guest × Bool :=
  match updateFirst email status st.data with
  | some d => (save_data ⟨d, st.file, st.writes⟩, true)
  | none => (st, false)

/-- Loop body of `GuestManager.get_rsvp_summary`, updating the
`(Confirmed, Declined, Pending)` counters exactly when the status (with
default `Pending` for a missing key) is one of the three dictionary keys. -/
def tallyStep (acc : Nat × Nat × Nat) (guest : Guest) : Nat × Nat × Nat :=
  let status := guest.rsvp.getD "Pending"
  if status = "Confirmed" then (acc.1 + 1, acc.2.1, acc.2.2)
  else if status = "Declined" then (acc.1, acc.2.1 + 1, acc.2.2)
  else if status = "Pending" then (acc.1, acc.2.1, acc.2.2 + 1)
  else acc

/-- `GuestManager.get_rsvp_summary`: the `(Confirmed, Declined, Pending)`
counts obtained by scanning all guests. -/
def get_rsvp_summary (data : List Guest) : Nat × Nat × Nat :=
  data.foldl tallyStep (0, 0, 0)

/-- `TaskManager.add_task(description, priority="Medium", due_date="")`. -/
def add_task (st : Store TaskRec) (description priority due_date today : String) :
    Store TaskRec × Option PyErr :=
  let description := pyStrip description
  if description = "" then
    (st, some (.valueError "Task description is required"))
  else
    (save_data ⟨st.data ++
      [⟨st.data.length + 1, description, priority, due_date, false, today, none⟩],
      st.file, st.writes⟩, none)

/-- The loop of `TaskManager.mark_completed`: complete the first task with
the given id and stamp `completed_date`, or `none` when no task matches. -/
def markFirst (task_id : Nat) (now : String) : List TaskRec → Option (List TaskRec)
  | [] => none
  | task :: rest =>
    if task.id = task_id then
      some ({ task with completed := true, completed_date := some now } :: rest)
    else
      (markFirst task_id now rest).map (task :: ·)

/-- `TaskManager.mark_completed(task_id)`: linear scan by id; on the first
match set `completed`, stamp `completed_date`, save and return `true`;
otherwise return `false` with nothing changed. -/
def mark_completed (st : Store TaskRec) (task_id : Nat) (now : String) :
    Store TaskRec × Bool :=
  match markFirst task_id now st.data with
  | some d => (save_data ⟨d, st.file, st.writes⟩, true)
  | none => (st, false)

/-- `BudgetManager.categories`, the fixed closed category set (a Python
`set`; its iteration order is unspecified, so theorems about the error
message below only use order-independent membership of each name). -/
def categories : List String :=
  ["Venue", "Food", "Decorations", "Entertainment", "Miscellaneous"]

/-- The message of the invalid-category error,
the fixed text `Invalid category. Must be one of: ` followed by the
category names joined with comma-space (the source joins a Python set,
whose iteration order is unspecified; this embedding fixes insertion
order, and theorems use only order-independent facts about the message). -/
def categoriesMsg : String :=
  "Invalid category. Must be one of: " ++ String.intercalate ", " categories

/-- `BudgetManager.add_expense(category, description, amount)`: normalize,
validate the category against the closed set and the description against
emptiness, parse the amount (`float(...)`, `ValueError` → "valid number"
message), reject `amount <= 0`, then append and save. -/
def add_expense (st : Store Expense) (category description amount today : String) :
    Store Expense × Option PyErr :=
  let category := pyTitle (pyStrip category)
  let description := pyStrip description
  if category ∉ categories then
    (st, some (.valueError categoriesMsg))
  else if description = "" then
    (st, some (.valueError "Description is required"))
  else
    match pyFloat amount with
    | none => (st, some (.valueError "Amount must be a valid number"))
    | some a =>
      if a.le0 then
        (st, some (.valueError "Amount must be positive"))
      else
        (save_data ⟨st.data ++
          [⟨st.data.length + 1, category, description, a, today⟩],
          st.file, st.writes⟩, none)

/-- A sequence of `add_task` calls against one `TaskManager`, each
exception being caught by the caller (the GUI), leaving the store as it
was at the raise. -/
def addTasks (st : Store TaskRec) : List (String × String × String × String) → Store TaskRec
  | [] => st
  | (d, p, dd, t) :: rest => addTasks (add_task st d p dd t).1 rest

/-- A sequence of `add_expense` calls against one `BudgetManager`, each
exception being caught by the caller. -/
def addExpenses (st : Store Expense) : List (String × String × String × String) → Store Expense
  | [] => st
  | (c, d, a, t) :: rest => addExpenses (add_expense st c d a t).1 rest

/-- The RSVP status `get_rsvp_summary` reads for a guest:
`guest.get` of the rsvp key with default `Pending`. -/
def statusOf (guest : Guest) : String :=
  guest.rsvp.getD "Pending"

/-!
## Helper lemmas
-/

/-- The collecting loop of `search_items` is `List.filter` of the
case-insensitive substring test. -/
theorem searchLoop_eq_filter {α : Type} (rep : α → String) (t : String) (l : List α) :
    searchLoop rep t l =
      l.filter (fun item => hasSubstr (lowerList t.data) (lowerList (rep item).data)) := by
  induction l with
  | nil => rfl
  | cons a l ih => simp [searchLoop, List.filter_cons, ih]

/-- Unrolling the RSVP tally fold: each counter is the starting value plus
the number of guests whose (defaulted) status equals that counter's key. -/
theorem foldl_tallyStep (l : List Guest) (a b c : Nat) :
    l.foldl tallyStep (a, b, c) =
      (a + l.countP (fun g => g.rsvp.getD "Pending" = "Confirmed"),
       b + l.countP (fun g => g.rsvp.getD "Pending" = "Declined"),
       c + l.countP (fun g => g.rsvp.getD "Pending" = "Pending")) := by
  induction l generalizing a b c with
  | nil => simp
  | cons g l ih =>
    simp only [List.foldl_cons, List.countP_cons, tallyStep]
    by_cases h1 : g.rsvp.getD "Pending" = "Confirmed" <;>
      by_cases h2 : g.rsvp.getD "Pending" = "Declined" <;>
        by_cases h3 : g.rsvp.getD "Pending" = "Pending" <;>
          simp only [h1, h2, h3, ih, Prod.ext_iff] <;>
          simp [h1, h2, h3] <;> omega

/-- When no guest's lowered email matches, the `update_rsvp` loop falls
through. -/
theorem updateFirst_none (email status : String) (l : List Guest)
    (h : ∀ g ∈ l, pyLower g.email ≠ pyLower email) :
    updateFirst email status l = none := by
  induction l with
  | nil => rfl
  | cons g l ih =>
    rw [updateFirst, if_neg (h g (by simp)), ih (fun g' hg' => h g' (by simp [hg']))]
    rfl

/-- The `update_rsvp` loop rewrites exactly the first matching guest. -/
theorem updateFirst_found (email status : String) (pre post : List Guest) (g : Guest)
    (hpre : ∀ g' ∈ pre, pyLower g'.email ≠ pyLower email)
    (hg : pyLower g.email = pyLower email) :
    updateFirst email status (pre ++ g :: post) =
      some (pre ++ { g with rsvp := some status } :: post) := by
  induction pre with
  | nil => simp [updateFirst, hg]
  | cons p pre ih =>
    rw [List.cons_append, updateFirst, if_neg (hpre p (by simp)),
      ih (fun g' h' => hpre g' (by simp [h']))]
    rfl

/-- The `mark_completed` loop finds a task exactly when one with the given
id is present. -/
theorem markFirst_isSome (task_id : Nat) (now : String) (l : List TaskRec) :
    (markFirst task_id now l).isSome = true ↔ ∃ t ∈ l, t.id = task_id := by
  induction l with
  | nil => simp [markFirst]
  | cons t l ih =>
    by_cases h : t.id = task_id
    · simp [markFirst, h]
    · simp [markFirst, h, ih]

/-!
## Claim theorems
-/

/-- C1 (counterexample): the claim "a failed save leaves the prior on-disk
file untouched (never partially written)" is false for this code.  A store
holding one guest whose backing file holds the matching good snapshot
loses that snapshot when a save fails during writing: `save_data` opens
the file with mode `'w'` (truncating it in place) before streaming the
JSON, so the prior content is destroyed. -/
theorem C1_counterexample :
    (save_data_faulty
        (⟨[⟨"John", "a@b.com", "", some "Pending", "d"⟩],
          some (.good [⟨"John", "a@b.com", "", some "Pending", "d"⟩]), 1⟩ : Store Guest)
        .writeFail).file ≠
      some (.good [⟨"John", "a@b.com", "", some "Pending", "d"⟩]) := by
  decide

/-- C1 (amended): immediately after every successful save the on-disk
snapshot equals the in-memory sequence, and a fresh registry constructed
over the same file loads the identical ordered record sequence; a failed
load (missing or unparseable file) leaves the store empty, never raising;
a failed save whose `open` call fails leaves the prior file untouched —
but a failure during writing may truncate or partially overwrite it
(`C1_counterexample`), since the file is overwritten in place. -/
theorem C1_store_persistence :
    (∀ (α : Type) (st : Store α),
        (save_data st).data = st.data ∧
        (save_data st).file = some (.good (save_data st).data)) ∧
    (∀ (α : Type) (st : Store α),
        (fresh_store (save_data st).file).data = st.data) ∧
    (∀ (α : Type),
        load_data (some FileContent.corrupt) = ([] : List α) ∧
        load_data (none : Option (FileContent α)) = []) ∧
    (∀ (α : Type) (st : Store α), save_data_faulty st .openFail = st) :=
  ⟨fun _ _ => ⟨rfl, rfl⟩, fun _ _ => rfl, fun _ => ⟨rfl, rfl⟩, fun _ _ => rfl⟩

/-- C6: `update_rsvp` on an email with no case-insensitive match returns
the not-found flag with the whole store — records, file, and write count —
unchanged (so the store file is not written), and it raises nothing (the
operation is a total function); on the first case-insensitive match it
sets the status to the given string (no validation), saves, and returns
the found flag. -/
theorem C6_update_rsvp (st : Store Guest) (email status : String) :
    ((∀ g ∈ st.data, pyLower g.email ≠ pyLower email) →
      update_rsvp st email status = (st, false)) ∧
    (∀ pre g post,
      st.data = pre ++ g :: post →
      (∀ g' ∈ pre, pyLower g'.email ≠ pyLower email) →
      pyLower g.email = pyLower email →
      update_rsvp st email status =
        (⟨pre ++ { g with rsvp := some status } :: post,
          some (.good (pre ++ { g with rsvp := some status } :: post)),
          st.writes + 1⟩, true)) := by
  constructor
  · intro h
    rw [update_rsvp, updateFirst_none email status st.data h]
  · intro pre g post hsplit hpre hg
    rw [update_rsvp, hsplit, updateFirst_found email status pre post g hpre hg]
    rfl

/-- C7: the RSVP tally returns exactly the `(Confirmed, Declined, Pending)`
counts over all guests, where a guest lacking an `rsvp` entry counts as
`Pending`; a guest with any other status string is counted in none of the
three tallies, so the three counts can sum to strictly less than the
number of guests (witnessed by a `"Maybe"` guest). -/
theorem C7_rsvp_tally (data : List Guest) :
    get_rsvp_summary data =
      (data.countP (fun g => statusOf g = "Confirmed"),
       data.countP (fun g => statusOf g = "Declined"),
       data.countP (fun g => statusOf g = "Pending")) ∧
    data.countP (fun g => statusOf g = "Confirmed") +
      data.countP (fun g => statusOf g = "Declined") +
      data.countP (fun g => statusOf g = "Pending") ≤ data.length ∧
    get_rsvp_summary
      [⟨"A", "a@b.com", "", none, "d"⟩, ⟨"B", "b@b.com", "", some "Maybe", "d"⟩] =
      (0, 0, 1) ∧
    0 + 0 + 1 <
      ([⟨"A", "a@b.com", "", none, "d"⟩,
        (⟨"B", "b@b.com", "", some "Maybe", "d"⟩ : Guest)] : List Guest).length := by
  refine ⟨by simpa using foldl_tallyStep data 0 0 0, ?_, by decide, by decide⟩
  induction data with
  | nil => simp
  | cons g l ih =>
    simp only [List.countP_cons, List.length_cons]
    by_cases h1 : statusOf g = "Confirmed" <;>
      by_cases h2 : statusOf g = "Declined" <;>
        by_cases h3 : statusOf g = "Pending" <;>
          simp [h1, h2, h3] <;> omega

/-- C9: `search_items` with an empty term returns the full sequence
unchanged; with a non-empty term it returns, in original order, exactly
the records whose textual representation contains the term as a
case-insensitive substring (a `List.filter`, hence order-preserving); and
it is deterministic — two calls on the same unchanged data agree (the
operation never mutates the record list). -/
theorem C9_search_items (α : Type) (rep : α → String) (data : List α) (term : String) :
    (term = "" → search_items rep data term = data) ∧
    (term ≠ "" →
      search_items rep data term =
        data.filter
          (fun item => hasSubstr (lowerList term.data) (lowerList (rep item).data))) ∧
    search_items rep data term = search_items rep data term := by
  refine ⟨fun h => by simp [search_items, h], fun h => ?_, rfl⟩
  rw [search_items, if_neg h, searchLoop_eq_filter]

/-- C10: every failing add operation is atomic.  Whenever `add_guest`,
`add_task` or `add_expense` raises (a validation or duplicate failure),
the whole store — record sequence, backing file, and write count — is
exactly as before the call, because every check runs before the record
is appended and the file saved. -/
theorem C10_failing_add_atomic :
    (∀ (st : Store Guest) (name email phone now : String),
        (add_guest st name email phone now).2 ≠ none →
        (add_guest st name email phone now).1 = st) ∧
    (∀ (st : Store TaskRec) (description priority due_date today : String),
        (add_task st description priority due_date today).2 ≠ none →
        (add_task st description priority due_date today).1 = st) ∧
    (∀ (st : Store Expense) (category description amount today : String),
        (add_expense st category description amount today).2 ≠ none →
        (add_expense st category description amount today).1 = st) := by
  refine ⟨fun st name email phone now h => ?_,
    fun st description priority due_date today h => ?_,
    fun st category description amount today h => ?_⟩
  · by_cases h1 : pyTitle (pyStrip name) = "" ∨ pyLower (pyStrip email) = ""
    · simp [add_guest, h1]
    · by_cases h2 : st.data.any
        (fun guest => pyLower guest.email = pyLower (pyLower (pyStrip email)))
      · simp [add_guest, h1, h2]
      · simp [add_guest, h1, h2] at h
  · by_cases h1 : pyStrip description = ""
    · simp [add_task, h1]
    · simp [add_task, h1] at h
  · by_cases h1 : pyTitle (pyStrip category) ∈ categories
    · by_cases h2 : pyStrip description = ""
      · simp [add_expense, h1, h2]
      · rcases hf : pyFloat amount with _ | a
        · simp [add_expense, h1, h2, hf]
        · by_cases h3 : a.le0
          · simp [add_expense, h1, h2, hf, h3]
          · simp [add_expense, h1, h2, hf, h3] at h
    · simp [add_expense, h1]

/-- C2: a `(name, email)` pair that passes all of `add_guest`'s checks is
appended and saved, and a subsequent `add_guest` whose email normalizes to
the same lower-cased email (so: the same email in any letter case) fails
with the duplicate error — a failure distinct from the validation error —
because the stored guest's lower-cased email equals the new lower-cased
one; the second call changes nothing. -/
theorem C2_duplicate_email (st : Store Guest)
    (name email phone now name2 email2 phone2 now2 : String)
    (hn : pyTitle (pyStrip name) ≠ "")
    (he : pyLower (pyStrip email) ≠ "")
    (hd : ∀ g ∈ st.data, pyLower g.email ≠ pyLower (pyLower (pyStrip email)))
    (hn2 : pyTitle (pyStrip name2) ≠ "")
    (he2 : pyLower (pyStrip email2) = pyLower (pyStrip email)) :
    add_guest st name email phone now =
      (save_data ⟨st.data ++ [⟨pyTitle (pyStrip name), pyLower (pyStrip email),
        pyStrip phone, some "Pending", now⟩], st.file, st.writes⟩, none) ∧
    add_guest
      (save_data ⟨st.data ++ [⟨pyTitle (pyStrip name), pyLower (pyStrip email),
        pyStrip phone, some "Pending", now⟩], st.file, st.writes⟩)
      name2 email2 phone2 now2 =
      (save_data ⟨st.data ++ [⟨pyTitle (pyStrip name), pyLower (pyStrip email),
        pyStrip phone, some "Pending", now⟩], st.file, st.writes⟩,
       some (.valueError "Guest with this email already exists")) ∧
    "Guest with this email already exists" ≠ "Name and email are required" := by
  have hany : st.data.any
      (fun guest => pyLower guest.email = pyLower (pyLower (pyStrip email))) = false :=
    List.any_eq_false.mpr (fun g hg => by simpa using hd g hg)
  refine ⟨by simp [add_guest, hn, he, hany], ?_, by decide⟩
  have he2' : pyLower (pyStrip email2) ≠ "" := he2 ▸ he
  have hany2 : (st.data ++ [(⟨pyTitle (pyStrip name), pyLower (pyStrip email),
      pyStrip phone, some "Pending", now⟩ : Guest)]).any
      (fun guest => pyLower guest.email = pyLower (pyLower (pyStrip email2))) = true :=
    List.any_eq_true.mpr
      ⟨⟨pyTitle (pyStrip name), pyLower (pyStrip email),
        pyStrip phone, some "Pending", now⟩, by simp, by simp [he2]⟩
  simp [add_guest, hn2, he2', save_data, hany2]

/-- C5: `add_guest` stores the name whitespace-trimmed and title-cased and
the email trimmed and lower-cased, with `rsvp` set to `Pending` and the
trimmed phone; in particular `add_guest("  joHN  ", "  A@B.com ")` stores
`name = "John"` and `email = "a@b.com"`; and when either the normalized
name or the normalized email is empty it fails with the validation error. -/
theorem C5_guest_normalization :
    (∀ (st : Store Guest) (name email phone now : String),
        pyTitle (pyStrip name) ≠ "" →
        pyLower (pyStrip email) ≠ "" →
        (∀ g ∈ st.data, pyLower g.email ≠ pyLower (pyLower (pyStrip email))) →
        add_guest st name email phone now =
          (save_data ⟨st.data ++ [⟨pyTitle (pyStrip name), pyLower (pyStrip email),
            pyStrip phone, some "Pending", now⟩], st.file, st.writes⟩, none)) ∧
    (∀ now : String,
        add_guest ⟨[], none, 0⟩ "  joHN  " "  A@B.com " "" now =
          (⟨[⟨"John", "a@b.com", "", some "Pending", now⟩],
            some (.good [⟨"John", "a@b.com", "", some "Pending", now⟩]), 1⟩, none)) ∧
    (∀ (st : Store Guest) (name email phone now : String),
        pyTitle (pyStrip name) = "" ∨ pyLower (pyStrip email) = "" →
        add_guest st name email phone now =
          (st, some (.valueError "Name and email are required"))) := by
  refine ⟨fun st name email phone now hn he hd => ?_, fun now => ?_,
    fun st name email phone now h => by simp [add_guest, h]⟩
  · have hany : st.data.any
        (fun guest => pyLower guest.email = pyLower (pyLower (pyStrip email))) = false :=
      List.any_eq_false.mpr (fun g hg => by simpa using hd g hg)
    simp [add_guest, hn, he, hany]
  · have h1 : pyTitle (pyStrip "  joHN  ") = "John" := by decide
    have h2 : pyLower (pyStrip "  A@B.com ") = "a@b.com" := by decide
    have h3 : pyStrip "" = "" := by decide
    simp [add_guest, h1, h2, h3, save_data]

/-- C3 (counterexample): the claim "on success `add_expense` stores an
amount that is a positive decimal" fails at the input `"nan"`.  Python's
`float("nan")` parses to NaN, and `nan <= 0` is `False`, so the
positivity check does not fire: the expense is stored with amount NaN,
which is not a positive number. -/
theorem C3_counterexample :
    add_expense ⟨[], none, 0⟩ "Venue" "x" "nan" "2024-01-01" =
      (⟨[⟨1, "Venue", "x", PyFloat.nan, "2024-01-01"⟩],
        some (.good [⟨1, "Venue", "x", PyFloat.nan, "2024-01-01"⟩]), 1⟩, none) ∧
    PyFloat.nan.isPosNum = false := by
  refine ⟨?_, rfl⟩
  decide

/-- C3 (amended): with a valid category and description, `add_expense`
fails with the message "Amount must be a valid number" when the amount
does not parse as a Python float, fails with the distinct message
"Amount must be positive" when the parsed value compares `<= 0`, and on
success appends the parsed amount, which is positive whenever it is a
numeric value — but the non-numeric floats Python's parser accepts (NaN,
infinity) pass the `<= 0` check and are stored too (`C3_counterexample`). -/
theorem C3_amount_validation (st : Store Expense) (category description amount today : String)
    (hcat : pyTitle (pyStrip category) ∈ categories)
    (hdesc : pyStrip description ≠ "") :
    (pyFloat amount = none →
      add_expense st category description amount today =
        (st, some (.valueError "Amount must be a valid number"))) ∧
    (∀ a, pyFloat amount = some a → a.le0 = true →
      add_expense st category description amount today =
        (st, some (.valueError "Amount must be positive"))) ∧
    ("Amount must be a valid number" ≠ "Amount must be positive") ∧
    (∀ a, pyFloat amount = some a → a.le0 = false →
      add_expense st category description amount today =
        (save_data ⟨st.data ++ [⟨st.data.length + 1, pyTitle (pyStrip category),
          pyStrip description, a, today⟩], st.file, st.writes⟩, none) ∧
      ∀ q : ℚ, a = .num q → 0 < q) := by
  refine ⟨fun hf => by simp [add_expense, hcat, hdesc, hf],
    fun a hf hle => by simp [add_expense, hcat, hdesc, hf, hle],
    by decide,
    fun a hf hle => ⟨by simp [add_expense, hcat, hdesc, hf, hle], fun q hq => ?_⟩⟩
  subst hq
  simpa [PyFloat.le0, not_le] using hle

/-- C4: `add_expense` trims and title-cases the category before checking
it against the closed set Venue, Food, Decorations, Entertainment,
Miscellaneous: any category normalizing outside the set fails with the
validation error whose message contains every one of the five valid
category names; `add_expense("venue", "Hall rental", "1500")` succeeds
and stores the category as `"Venue"`, while `add_expense("Catering",
"x", "10")` fails with that message. -/
theorem C4_category_validation :
    (∀ (st : Store Expense) (category description amount today : String),
        pyTitle (pyStrip category) ∉ categories →
        add_expense st category description amount today =
          (st, some (.valueError categoriesMsg))) ∧
    (∀ c ∈ categories, strContains categoriesMsg c = true) ∧
    (∀ (st : Store Expense) (today : String),
        add_expense st "venue" "Hall rental" "1500" today =
          (save_data ⟨st.data ++ [⟨st.data.length + 1, "Venue", "Hall rental",
            .num 1500, today⟩], st.file, st.writes⟩, none)) ∧
    (∀ (st : Store Expense) (today : String),
        add_expense st "Catering" "x" "10" today =
          (st, some (.valueError categoriesMsg))) := by
  refine ⟨fun st category description amount today h => by simp [add_expense, h],
    by decide, fun st today => ?_, fun st today => ?_⟩
  · have h1 : pyTitle (pyStrip "venue") = "Venue" := by decide
    have h2 : pyStrip "Hall rental" = "Hall rental" := by decide
    have h3 : pyFloat "1500" = some (.num 1500) := by decide
    have h4 : PyFloat.le0 (.num 1500) = false := by decide
    have h5 : ("Venue" : String) ∈ categories := by decide
    simp [add_expense, h1, h2, h3, h4, h5]
  · have h1 : pyTitle (pyStrip "Catering") = "Catering" := by decide
    have h2 : ("Catering" : String) ∉ categories := by decide
    simp [add_expense, h1, h2]

/-- Either `add_task` raised and left the store unchanged, or it appended
one task whose id is one greater than the prior record count. -/
theorem add_task_shape (st : Store TaskRec) (d p dd t : String) :
    (add_task st d p dd t).1 = st ∨
      ((add_task st d p dd t).1.data.map TaskRec.id =
          st.data.map TaskRec.id ++ [st.data.length + 1] ∧
        (add_task st d p dd t).1.data.length = st.data.length + 1) := by
  by_cases h1 : pyStrip d = ""
  · left
    simp [add_task, h1]
  · right
    simp [add_task, h1, save_data]

/-- Either `add_expense` raised and left the store unchanged, or it
appended one expense whose id is one greater than the prior record count. -/
theorem add_expense_shape (st : Store Expense) (c d a t : String) :
    (add_expense st c d a t).1 = st ∨
      ((add_expense st c d a t).1.data.map Expense.id =
          st.data.map Expense.id ++ [st.data.length + 1] ∧
        (add_expense st c d a t).1.data.length = st.data.length + 1) := by
  by_cases h1 : pyTitle (pyStrip c) ∈ categories
  · by_cases h2 : pyStrip d = ""
    · left
      simp [add_expense, h1, h2]
    · rcases hf : pyFloat a with _ | af
      · left
        simp [add_expense, h1, h2, hf]
      · by_cases h3 : af.le0
        · left
          simp [add_expense, h1, h2, hf, h3]
        · right
          simp [add_expense, h1, h2, hf, h3, save_data]
  · left
    simp [add_expense, h1]

/-- Any sequence of `add_task` calls preserves the invariant "the ids are
exactly `1..count` in order". -/
theorem addTasks_ids (inputs : List (String × String × String × String))
    (st : Store TaskRec)
    (h : st.data.map TaskRec.id = List.range' 1 st.data.length) :
    (addTasks st inputs).data.map TaskRec.id =
      List.range' 1 (addTasks st inputs).data.length := by
  induction inputs generalizing st with
  | nil => exact h
  | cons i rest ih =>
    rcases i with ⟨d, p, dd, t⟩
    rw [addTasks]
    apply ih
    rcases add_task_shape st d p dd t with heq | ⟨hmap, hlen⟩
    · rw [heq]
      exact h
    · rw [hmap, hlen, h, List.range'_concat]
      simp [Nat.add_comm]

/-- Any sequence of `add_expense` calls preserves the invariant "the ids
are exactly `1..count` in order". -/
theorem addExpenses_ids (inputs : List (String × String × String × String))
    (st : Store Expense)
    (h : st.data.map Expense.id = List.range' 1 st.data.length) :
    (addExpenses st inputs).data.map Expense.id =
      List.range' 1 (addExpenses st inputs).data.length := by
  induction inputs generalizing st with
  | nil => exact h
  | cons i rest ih =>
    rcases i with ⟨c, d, a, t⟩
    rw [addExpenses]
    apply ih
    rcases add_expense_shape st c d a t with heq | ⟨hmap, hlen⟩
    · rw [heq]
      exact h
    · rw [hmap, hlen, h, List.range'_concat]
      simp [Nat.add_comm]

/-- `mark_completed` reports found exactly when a task with the given id
is in the list. -/
theorem mark_completed_found (st : Store TaskRec) (k : Nat) (now : String) :
    (mark_completed st k now).2 = true ↔ ∃ t ∈ st.data, t.id = k := by
  rw [← markFirst_isSome k now st.data, mark_completed]
  rcases h : markFirst k now st.data with _ | d <;> simp [h]

/-- C8: every `add_task` and `add_expense` assigns `id = current count + 1`
at creation time; hence after any sequence of add calls on a registry
constructed over no backing file, the stored ids are exactly the
contiguous range `1..n` in order (in particular all distinct), and
`mark_completed k` reports found precisely when `1 ≤ k ≤ n`. -/
theorem C8_sequential_ids :
    (∀ (st : Store TaskRec) (description priority due_date today : String),
        (add_task st description priority due_date today).2 = none →
        (add_task st description priority due_date today).1.data.map TaskRec.id =
          st.data.map TaskRec.id ++ [st.data.length + 1]) ∧
    (∀ (st : Store Expense) (category description amount today : String),
        (add_expense st category description amount today).2 = none →
        (add_expense st category description amount today).1.data.map Expense.id =
          st.data.map Expense.id ++ [st.data.length + 1]) ∧
    (∀ inputs : List (String × String × String × String),
        (addTasks (fresh_store none) inputs).data.map TaskRec.id =
          List.range' 1 (addTasks (fresh_store none) inputs).data.length ∧
        ((addTasks (fresh_store none) inputs).data.map TaskRec.id).Nodup) ∧
    (∀ (inputs : List (String × String × String × String)) (k : Nat) (now : String),
        (mark_completed (addTasks (fresh_store none) inputs) k now).2 = true ↔
          1 ≤ k ∧ k ≤ (addTasks (fresh_store none) inputs).data.length) ∧
    (∀ inputs : List (String × String × String × String),
        (addExpenses (fresh_store none) inputs).data.map Expense.id =
          List.range' 1 (addExpenses (fresh_store none) inputs).data.length) := by
  refine ⟨fun st d p dd t h => ?_, fun st c d a t h => ?_, fun inputs => ?_,
    fun inputs k now => ?_, fun inputs => ?_⟩
  · by_cases h1 : pyStrip d = ""
    · simp [add_task, h1] at h
    · simp [add_task, h1, save_data]
  · by_cases h1 : pyTitle (pyStrip c) ∈ categories
    · by_cases h2 : pyStrip d = ""
      · simp [add_expense, h1, h2] at h
      · rcases hf : pyFloat a with _ | af
        · simp [add_expense, h1, h2, hf] at h
        · by_cases h3 : af.le0
          · simp [add_expense, h1, h2, hf, h3] at h
          · simp [add_expense, h1, h2, hf, h3, save_data]
    · simp [add_expense, h1] at h
  · have hids := addTasks_ids inputs (fresh_store none) (by simp [fresh_store, load_data])
    refine ⟨hids, ?_⟩
    rw [hids]
    exact List.nodup_range' 1 _
  · rw [mark_completed_found]
    have hids := addTasks_ids inputs (fresh_store none) (by simp [fresh_store, load_data])
    constructor
    · rintro ⟨t, ht, rfl⟩
      have hmem : t.id ∈ (addTasks (fresh_store none) inputs).data.map TaskRec.id :=
        List.mem_map.mpr ⟨t, ht, rfl⟩
      rw [hids] at hmem
      have := List.mem_range'_1.mp hmem
      omega
    · rintro ⟨h1, h2⟩
      have hmem : k ∈ (addTasks (fresh_store none) inputs).data.map TaskRec.id := by
        rw [hids]
        exact List.mem_range'_1.mpr ⟨h1, by omega⟩
      rcases List.mem_map.mp hmem with ⟨t, ht, hid⟩
      exact ⟨t, ht, hid⟩
  · exact addExpenses_ids inputs (fresh_store none) (by simp [fresh_store, load_data])

/-!
## Witnesses: the claim theorems applied at concrete inputs
-/

/-- Witness for C2 at a concrete pair of calls on an empty registry. -/
theorem C2_witness :
    add_guest ⟨[], none, 0⟩ "John" "a@b.com" "555" "d1" =
      (save_data ⟨([] : List Guest) ++ [⟨pyTitle (pyStrip "John"),
        pyLower (pyStrip "a@b.com"), pyStrip "555", some "Pending", "d1"⟩], none, 0⟩,
       none) ∧
    add_guest
      (save_data ⟨([] : List Guest) ++ [⟨pyTitle (pyStrip "John"),
        pyLower (pyStrip "a@b.com"), pyStrip "555", some "Pending", "d1"⟩], none, 0⟩)
      "Jo" " A@B.COM " "" "d2" =
      (save_data ⟨([] : List Guest) ++ [⟨pyTitle (pyStrip "John"),
        pyLower (pyStrip "a@b.com"), pyStrip "555", some "Pending", "d1"⟩], none, 0⟩,
       some (.valueError "Guest with this email already exists")) ∧
    "Guest with this email already exists" ≠ "Name and email are required" :=
  C2_duplicate_email ⟨[], none, 0⟩ "John" "a@b.com" "555" "d1" "Jo" " A@B.COM " "" "d2"
    (by decide) (by decide) (by simp) (by decide) (by decide)

/-- Witness for C3 (amended) at the two failing inputs of the spec. -/
theorem C3_witness :
    add_expense ⟨[], none, 0⟩ "Food" "Cake" "abc" "d" =
      (⟨[], none, 0⟩, some (.valueError "Amount must be a valid number")) ∧
    add_expense ⟨[], none, 0⟩ "Food" "Cake" "-5" "d" =
      (⟨[], none, 0⟩, some (.valueError "Amount must be positive")) :=
  ⟨(C3_amount_validation ⟨[], none, 0⟩ "Food" "Cake" "abc" "d" (by decide) (by decide)).1
      (by decide),
   (C3_amount_validation ⟨[], none, 0⟩ "Food" "Cake" "-5" "d" (by decide) (by decide)).2.1
      (.num (-5)) (by decide) (by decide)⟩

/-- Witness for C4 at the concrete invalid category of the spec. -/
theorem C4_witness :
    add_expense ⟨[], none, 0⟩ "Catering" "x" "10" "d" =
      (⟨[], none, 0⟩, some (.valueError categoriesMsg)) ∧
    strContains categoriesMsg "Venue" = true ∧
    strContains categoriesMsg "Miscellaneous" = true :=
  ⟨C4_category_validation.1 ⟨[], none, 0⟩ "Catering" "x" "10" "d" (by decide),
   C4_category_validation.2.1 "Venue" (by decide),
   C4_category_validation.2.1 "Miscellaneous" (by decide)⟩

/-- Witness for C5 at the spec's concrete call and at an all-blank name. -/
theorem C5_witness :
    add_guest ⟨[], none, 0⟩ "  joHN  " "  A@B.com " "" "2024-01-01" =
      (⟨[⟨"John", "a@b.com", "", some "Pending", "2024-01-01"⟩],
        some (.good [⟨"John", "a@b.com", "", some "Pending", "2024-01-01"⟩]), 1⟩,
       none) ∧
    add_guest ⟨[], none, 0⟩ "   " "x@y.com" "" "d" =
      (⟨[], none, 0⟩, some (.valueError "Name and email are required")) :=
  ⟨C5_guest_normalization.2.1 "2024-01-01",
   C5_guest_normalization.2.2 ⟨[], none, 0⟩ "   " "x@y.com" "" "d" (by decide)⟩

/-- Witness for C6: a miss leaves the singleton store untouched, a
case-insensitive hit updates and saves. -/
theorem C6_witness :
    update_rsvp ⟨[⟨"John", "a@b.com", "", some "Pending", "d"⟩], none, 0⟩
      "nobody@x.com" "Confirmed" =
      (⟨[⟨"John", "a@b.com", "", some "Pending", "d"⟩], none, 0⟩, false) ∧
    update_rsvp ⟨[⟨"John", "a@b.com", "", some "Pending", "d"⟩], none, 0⟩
      "A@B.COM" "Confirmed" =
      (⟨[⟨"John", "a@b.com", "", some "Confirmed", "d"⟩],
        some (.good [⟨"John", "a@b.com", "", some "Confirmed", "d"⟩]), 1⟩, true) :=
  ⟨(C6_update_rsvp ⟨[⟨"John", "a@b.com", "", some "Pending", "d"⟩], none, 0⟩
      "nobody@x.com" "Confirmed").1 (by decide),
   (C6_update_rsvp ⟨[⟨"John", "a@b.com", "", some "Pending", "d"⟩], none, 0⟩
      "A@B.COM" "Confirmed").2 [] ⟨"John", "a@b.com", "", some "Pending", "d"⟩ []
      rfl (by simp) (by decide)⟩

/-- Witness for C8 at a one-task add and a two-task sequence. -/
theorem C8_witness :
    (add_task ⟨[], none, 0⟩ "Book venue" "High" "" "d").1.data.map TaskRec.id = [1] ∧
    ((mark_completed
        (addTasks (fresh_store none) [("t1", "Medium", "", "d"), ("t2", "Low", "", "d")])
        2 "now").2 = true ↔
      1 ≤ 2 ∧ 2 ≤ (addTasks (fresh_store none)
        [("t1", "Medium", "", "d"), ("t2", "Low", "", "d")]).data.length) :=
  ⟨C8_sequential_ids.1 ⟨[], none, 0⟩ "Book venue" "High" "" "d" (by decide),
   C8_sequential_ids.2.2.2.1 [("t1", "Medium", "", "d"), ("t2", "Low", "", "d")] 2 "now"⟩

/-- Witness for C9 on a concrete two-guest list with the guest's name as
the textual representation. -/
theorem C9_witness :
    search_items Guest.name
      [⟨"John", "a@b.com", "", some "Pending", "d"⟩,
       ⟨"Mary", "m@c.com", "", some "Pending", "d"⟩] "" =
      [⟨"John", "a@b.com", "", some "Pending", "d"⟩,
       ⟨"Mary", "m@c.com", "", some "Pending", "d"⟩] ∧
    search_items Guest.name
      [⟨"John", "a@b.com", "", some "Pending", "d"⟩,
       ⟨"Mary", "m@c.com", "", some "Pending", "d"⟩] "JO" =
      List.filter
        (fun item => hasSubstr (lowerList ("JO" : String).data)
          (lowerList (Guest.name item).data))
        [⟨"John", "a@b.com", "", some "Pending", "d"⟩,
         ⟨"Mary", "m@c.com", "", some "Pending", "d"⟩] :=
  ⟨(C9_search_items Guest Guest.name
      [⟨"John", "a@b.com", "", some "Pending", "d"⟩,
       ⟨"Mary", "m@c.com", "", some "Pending", "d"⟩] "").1 rfl,
   (C9_search_items Guest Guest.name
      [⟨"John", "a@b.com", "", some "Pending", "d"⟩,
       ⟨"Mary", "m@c.com", "", some "Pending", "d"⟩] "JO").2.1 (by decide)⟩

/-- Witness for C10 at one failing call of each add operation. -/
theorem C10_witness :
    (add_guest ⟨[], none, 0⟩ "" "x@y.com" "" "d").1 = ⟨[], none, 0⟩ ∧
    (add_task ⟨[], none, 0⟩ "  " "Medium" "" "d").1 = ⟨[], none, 0⟩ ∧
    (add_expense ⟨[], none, 0⟩ "Nope" "x" "5" "d").1 = ⟨[], none, 0⟩ :=
  ⟨C10_failing_add_atomic.1 ⟨[], none, 0⟩ "" "x@y.com" "" "d" (by decide),
   C10_failing_add_atomic.2.1 ⟨[], none, 0⟩ "  " "Medium" "" "d" (by decide),
   C10_failing_add_atomic.2.2 ⟨[], none, 0⟩ "Nope" "x" "5" "d" (by decide)⟩
